import Mathlib

/-!
Shallow embedding of the job-board backend in `src/src/jobs.py`.

The relational store is a `DB` value holding the three tables (`users`,
`jobs`, `applications`) as lists in insertion order, together with the
next auto-increment primary key of each table.  Every route handler is a
pure function; a handler that can raise `HTTPException` returns a
`DB × Except HErr α` pair where the first component is the store after
the request (unchanged when the request fails, since every handler in the
source raises before any write).  The SMTP side effect of `send_email` is
modelled by a boolean oracle saying whether the send raises, and the
handler returns the log lines the `except` branch would print.
-/

set_option maxHeartbeats 1000000

namespace JobBoard

/-- Row of the `users` table (`class User`, jobs.py lines 30-35). -/
structure User where
  id : Nat
  email : String
  password : String
  role : String
deriving DecidableEq

/-- Row of the `jobs` table (`class Job`, jobs.py lines 37-43). -/
structure Job where
  id : Nat
  title : String
  description : String
  recruiter_id : Nat
deriving DecidableEq

/-- Row of the `applications` table (`class Application`, jobs.py lines 45-50). -/
structure Application where
  id : Nat
  candidate_id : Nat
  job_id : Nat
deriving DecidableEq

/-- The relational store: the three tables in insertion order plus the
next auto-increment primary key of each. -/
structure DB where
  users : List User
  jobs : List Job
  applications : List Application
  nextUserId : Nat
  nextJobId : Nat
  nextAppId : Nat
deriving DecidableEq

/-- An `HTTPException`: status code and detail string. -/
structure HErr where
  status : Nat
  detail : String
deriving DecidableEq

/-- `HTTPException(status_code=400, detail="User already exists")`. -/
def conflictErr : HErr := ⟨400, "User already exists"⟩

/-- `HTTPException(status_code=400, detail="Invalid credentials")`. -/
def invalidCred : HErr := ⟨400, "Invalid credentials"⟩

/-- `HTTPException(status_code=403, detail="Not authorized")`. -/
def forbidden : HErr := ⟨403, "Not authorized"⟩

/-- `HTTPException(status_code=404, detail="Job not found")`. -/
def notFound : HErr := ⟨404, "Job not found"⟩

/-- The HTTP 500 response the framework produces when a handler raises an
exception that is not an `HTTPException`. -/
def internalError : HErr := ⟨500, "Internal Server Error"⟩

/-- The `/auth/token` response body: `{"access_token": ..., "token_type": ...}`. -/
structure TokenResponse where
  access_token : String
  token_type : String
deriving DecidableEq

/-- The `JobResponse` pydantic model: id, title, description. -/
structure JobResponse where
  id : Nat
  title : String
  description : String
deriving DecidableEq

/-- `db.query(User).filter(User.email == token).first()`: the first user
whose email equals the bearer token. -/
def resolveUser (db : DB) (token : String) : Option User :=
  db.users.find? (fun v => v.email == token)

/-- Handler `signup` (jobs.py lines 80-89): reject when a user with that
email exists, otherwise insert a row with the fields stored verbatim. -/
def signup (db : DB) (email password role : String) : DB × Except HErr String :=
  match db.users.find? (fun v => v.email == email) with
  | some _ => (db, Except.error conflictErr)
  | none =>
      ({ db with
          users := db.users ++ [⟨db.nextUserId, email, password, role⟩],
          nextUserId := db.nextUserId + 1 },
       Except.ok "User created successfully")

/-- Handler `login` (jobs.py lines 92-97): find the first user whose email
and password both match the submitted form, by plain-text equality. -/
def login (db : DB) (username password : String) : Except HErr TokenResponse :=
  match db.users.find? (fun v => v.email == username && v.password == password) with
  | none => Except.error invalidCred
  | some u => Except.ok ⟨u.email, "bearer"⟩

/-- Handler `list_jobs` (jobs.py lines 100-102): the token is required by
the route signature but never inspected; all jobs are returned, projected
through `JobResponse`. -/
def list_jobs (db : DB) (token : String) : List JobResponse :=
  db.jobs.map (fun j => ⟨j.id, j.title, j.description⟩)

/-- Handler `post_job` (jobs.py lines 105-114): resolve the token to a
user, reject unless the role is "recruiter", otherwise insert a job owned
by that user. -/
def post_job (db : DB) (token title description : String) : DB × Except HErr String :=
  match resolveUser db token with
  | none => (db, Except.error forbidden)
  | some u =>
      if u.role ≠ "recruiter" then (db, Except.error forbidden)
      else
        ({ db with
            jobs := db.jobs ++ [⟨db.nextJobId, title, description, u.id⟩],
            nextJobId := db.nextJobId + 1 },
         Except.ok "Job posted successfully")

/-- Utility `send_email` (jobs.py lines 117-123): the SMTP interaction
either completes or raises; `smtpOk` says which.  Every exception is
caught by the handler and printed, so the function never propagates a
failure; its value is the list of log lines printed. -/
def send_email (smtpOk : Bool) (to_email subject body : String) : List String :=
  if smtpOk then [] else ["Error sending email"]

/-- The email of `job.recruiter`, reached through the foreign key. -/
def recruiterEmailOf (db : DB) (job : Job) : Option String :=
  (db.users.find? (fun v => v.id == job.recruiter_id)).map User.email

/-- Handler `apply_to_job` (jobs.py lines 126-143): resolve the token,
reject unless the role is "candidate", reject with 404 when no job has the
requested id, otherwise insert an application row, commit, and attempt the
two notifications (whose outcomes `ok1`, `ok2` are oracles).  The third
component collects the log lines of failed sends. -/
def apply_to_job (db : DB) (token : String) (job_id : Nat) (ok1 ok2 : Bool) :
    DB × Except HErr String × List String :=
  match resolveUser db token with
  | none => (db, Except.error forbidden, [])
  | some u =>
      if u.role ≠ "candidate" then (db, Except.error forbidden, [])
      else
        match db.jobs.find? (fun j => j.id == job_id) with
        | none => (db, Except.error notFound, [])
        | some job =>
            let db1 : DB :=
              { db with
                  applications := db.applications ++ [⟨db.nextAppId, u.id, job.id⟩],
                  nextAppId := db.nextAppId + 1 }
            let log1 := send_email ok1 ((recruiterEmailOf db job).getD "")
              "Job Application Received"
              (u.email ++ " applied for your job " ++ job.title)
            let log2 := send_email ok2 u.email "Application Submitted"
              ("You applied for the job " ++ job.title)
            (db1, Except.ok "Applied successfully", log1 ++ log2)

/-- Handler `list_applications` (jobs.py lines 146-151): resolve the
token, reject unless the role is "candidate", otherwise return the job of
each of the user's applications, in application order. -/
def list_applications (db : DB) (token : String) : DB × Except HErr (List Job) :=
  match resolveUser db token with
  | none => (db, Except.error forbidden)
  | some u =>
      if u.role ≠ "candidate" then (db, Except.error forbidden)
      else
        (db, Except.ok ((db.applications.filter (fun a => a.candidate_id == u.id)).filterMap
          (fun a => db.jobs.find? (fun j => j.id == a.job_id))))

/-- Handler `list_applicants` (jobs.py lines 154-164): resolve the token,
reject unless the role is "recruiter", look the job up by id AND owner,
404 when absent.  The success branch then evaluates `job.applications`
(line 164), but no `applications` relationship is ever defined on `Job`:
`Application.job` (line 50) has no back_populates or backref, and the
post-class assignments (lines 52-54) only define `User.jobs`,
`User.applications` and `Application.candidate`.  The attribute read
therefore raises AttributeError, so in every store state the request
fails with an HTTP 500 and never returns the email list; the store is
unchanged, since the branch performs no write. -/
def list_applicants (db : DB) (token : String) (job_id : Nat) :
    DB × Except HErr (List String) :=
  match resolveUser db token with
  | none => (db, Except.error forbidden)
  | some u =>
      if u.role ≠ "recruiter" then (db, Except.error forbidden)
      else
        match db.jobs.find? (fun j => j.id == job_id && j.recruiter_id == u.id) with
        | none => (db, Except.error notFound)
        | some _ => (db, Except.error internalError)

/-- Handler `logout` (jobs.py lines 167-169): stateless acknowledgment. -/
def logout : String := "Logged out successfully"

/-- Handler `default` (jobs.py lines 75-77): stateless welcome message. -/
def homeMessage : String := "welcome home"

/-- One incoming request, covering every route of the app. -/
inductive Req where
  | rhome : Req
  | rsignup (email password role : String) : Req
  | rlogin (username password : String) : Req
  | rlistJobs (token : String) : Req
  | rpostJob (token title description : String) : Req
  | rapply (token : String) (job_id : Nat) (ok1 ok2 : Bool) : Req
  | rlistApplications (token : String) : Req
  | rlistApplicants (token : String) (job_id : Nat) : Req
  | rlogout : Req
deriving DecidableEq

/-- The store after serving one request: read-only routes and failing
requests leave it unchanged, the three writing routes are the handlers
above. -/
def step (db : DB) : Req → DB
  | .rhome => db
  | .rsignup email password role => (signup db email password role).1
  | .rlogin _ _ => db
  | .rlistJobs _ => db
  | .rpostJob token title description => (post_job db token title description).1
  | .rapply token job_id ok1 ok2 => (apply_to_job db token job_id ok1 ok2).1
  | .rlistApplications token => (list_applications db token).1
  | .rlistApplicants token job_id => (list_applicants db token job_id).1
  | .rlogout => db

/-- `unique=True` on `users.email` (jobs.py line 33): the schema itself
declares the email column unique. -/
def usersEmailUniqueConstraint : Bool := true

/-- Modelled from the spec: the relational store enforcing the declared
schema constraints at insert time is external to this repository (only the
`unique=True` declaration is in the source); per the spec, "the store
itself rejects the duplicate at the constraint level", so a
constraint-level insert of a user fails whenever the unique column is
declared and a row with the same email already exists, independently of
any handler-level pre-check. -/
def storeInsertUser (users : List User) (u : User) : Option (List User) :=
  if usersEmailUniqueConstraint && users.any (fun v => v.email == u.email)
  then none
  else some (users ++ [u])

/-! Concrete sample data used by the witness theorems. -/

/-- A recruiter user. -/
def uRec : User := ⟨1, "r@x.com", "pr", "recruiter"⟩

/-- A candidate user. -/
def uCan : User := ⟨2, "c@x.com", "pc", "candidate"⟩

/-- A user whose role is neither "recruiter" nor "candidate". -/
def uAdm : User := ⟨3, "a@x.com", "pa", "admin"⟩

/-- A job owned by `uRec`. -/
def jOwn : Job := ⟨1, "Backend Engineer", "build APIs", 1⟩

/-- A job owned by some other recruiter (id 9). -/
def jOther : Job := ⟨2, "Other Role", "elsewhere", 9⟩

/-- The application of `uCan` to `jOwn`. -/
def appCJ : Application := ⟨1, 2, 1⟩

/-- A populated sample store. -/
def dbEx : DB := ⟨[uRec, uCan, uAdm], [jOwn, jOther], [appCJ], 4, 3, 2⟩

/-- The empty store. -/
def dbEmpty : DB := ⟨[], [], [], 1, 1, 1⟩

/-- C3: `signup` fails with Conflict (HTTP 400) and creates no User when a
user with that email is already registered; otherwise it appends exactly
one new User storing email, password and role verbatim and acknowledges
success. -/
theorem signup_conflict_or_creates (db : DB) (email password role : String) :
    ((∃ v ∈ db.users, v.email = email) →
      signup db email password role = (db, Except.error conflictErr)) ∧
    ((∀ v ∈ db.users, v.email ≠ email) →
      signup db email password role =
        ({ db with
            users := db.users ++ [⟨db.nextUserId, email, password, role⟩],
            nextUserId := db.nextUserId + 1 },
         Except.ok "User created successfully")) := by
  constructor
  · rintro ⟨v, hv, he⟩
    rcases h : db.users.find? (fun w => w.email == email) with _ | u
    · exact absurd (by simp [he] : (fun w => w.email == email) v = true)
        (List.find?_eq_none.mp h v hv)
    · simp [signup, h]
  · intro hall
    have hnone : db.users.find? (fun w => w.email == email) = none :=
      List.find?_eq_none.mpr (fun v hv => by simp [hall v hv])
    simp [signup, hnone]

/-- Witness for C3 on concrete stores: a duplicate email is rejected with
Conflict, a fresh email is created successfully. -/
theorem signup_conflict_or_creates_witness :
    signup dbEx "c@x.com" "zz" "candidate" = (dbEx, Except.error conflictErr) ∧
    (signup dbEmpty "n@x.com" "pw" "recruiter").2 = Except.ok "User created successfully" :=
  ⟨(signup_conflict_or_creates dbEx "c@x.com" "zz" "candidate").1 ⟨uCan, by decide, by decide⟩,
   by rw [(signup_conflict_or_creates dbEmpty "n@x.com" "pw" "recruiter").2 (by decide)]⟩

/-- C4: `login` returns the bearer credential equal to the submitted
username together with the fixed label "bearer" exactly when some stored
user matches both submitted fields by plain-text equality; when no user
matches both, it fails with InvalidCredentials (HTTP 400). -/
theorem login_bearer_iff_match (db : DB) (username password : String) :
    (login db username password = Except.ok ⟨username, "bearer"⟩ ↔
      ∃ u ∈ db.users, u.email = username ∧ u.password = password) ∧
    ((∀ u ∈ db.users, ¬(u.email = username ∧ u.password = password)) →
      login db username password = Except.error invalidCred) := by
  constructor
  · constructor
    · intro hok
      rcases h : db.users.find? (fun v => v.email == username && v.password == password)
        with _ | u
      · simp [login, h] at hok
      · have hp := List.find?_some h
        simp at hp
        exact ⟨u, List.mem_of_find?_eq_some h, hp⟩
    · rintro ⟨u, hu, he, hp⟩
      rcases h : db.users.find? (fun v => v.email == username && v.password == password)
        with _ | w
      · exact absurd (by simp [he, hp] : (fun v => v.email == username &&
          v.password == password) u = true) (List.find?_eq_none.mp h u hu)
      · have hw := List.find?_some h
        simp at hw
        simp [login, h, hw.1]
  · intro hall
    have hnone : db.users.find?
        (fun v => v.email == username && v.password == password) = none :=
      List.find?_eq_none.mpr (fun v hv => by simpa using hall v hv)
    simp [login, hnone]

/-- Witness for C4 on the sample store: the candidate logs in with the
right password and gets their email back as the token, and a wrong
password is rejected. -/
theorem login_bearer_iff_match_witness :
    login dbEx "c@x.com" "pc" = Except.ok ⟨"c@x.com", "bearer"⟩ ∧
    login dbEx "c@x.com" "wrong" = Except.error invalidCred :=
  ⟨(login_bearer_iff_match dbEx "c@x.com" "pc").1.mpr ⟨uCan, by decide, by decide, by decide⟩,
   (login_bearer_iff_match dbEx "c@x.com" "wrong").2 (by decide)⟩

/-- C7: `list_jobs` never resolves the credential — any two tokens give
the same answer — and returns every stored job projected to id, title and
description; in particular each stored job appears, with identical title
and description, for any caller. -/
theorem list_jobs_all_any_token (db : DB) (t1 t2 : String) :
    list_jobs db t1 = list_jobs db t2 ∧
    list_jobs db t1 = db.jobs.map (fun j => ⟨j.id, j.title, j.description⟩) ∧
    ∀ j ∈ db.jobs, (⟨j.id, j.title, j.description⟩ : JobResponse) ∈ list_jobs db t1 := by
  refine ⟨rfl, rfl, ?_⟩
  intro j hj
  exact List.mem_map_of_mem _ hj

/-- Witness for C7 on the sample store: an arbitrary token sees the same
job list as the recruiter, containing the posted job verbatim. -/
theorem list_jobs_all_any_token_witness :
    list_jobs dbEx "anything" = list_jobs dbEx "r@x.com" ∧
    (⟨1, "Backend Engineer", "build APIs"⟩ : JobResponse) ∈ list_jobs dbEx "anything" :=
  ⟨(list_jobs_all_any_token dbEx "anything" "r@x.com").1,
   (list_jobs_all_any_token dbEx "anything" "r@x.com").2.2 jOwn (by decide)⟩

/-- C5: `post_job` fails with Forbidden (403) and creates no Job when the
credential resolves to no user or only to users whose role is not
"recruiter" (a candidate's credential in particular); with a recruiter
credential it appends one Job owned by that user (recruiter_id equal to
the user's id) and acknowledges success. -/
theorem post_job_recruiter_only (db : DB) (token title description : String) :
    ((∀ u ∈ db.users, u.email = token → u.role ≠ "recruiter") →
      post_job db token title description = (db, Except.error forbidden)) ∧
    (∀ u, resolveUser db token = some u → u.role = "recruiter" →
      post_job db token title description =
        ({ db with
            jobs := db.jobs ++ [⟨db.nextJobId, title, description, u.id⟩],
            nextJobId := db.nextJobId + 1 },
         Except.ok "Job posted successfully")) := by
  constructor
  · intro hall
    rcases h : resolveUser db token with _ | u
    · simp [post_job, h]
    · have hmem := List.mem_of_find?_eq_some h
      have hemail := List.find?_some h
      simp at hemail
      simp [post_job, h, hall u hmem hemail]
  · intro u h hr
    simp [post_job, h, hr]

/-- Witness for C5 on the sample store: the candidate's credential is
rejected with Forbidden and the store is unchanged, the recruiter's
credential appends exactly one job owned by the recruiter. -/
theorem post_job_recruiter_only_witness :
    post_job dbEx "c@x.com" "T" "D" = (dbEx, Except.error forbidden) ∧
    post_job dbEx "r@x.com" "T" "D" =
      ({ dbEx with
          jobs := dbEx.jobs ++ [⟨dbEx.nextJobId, "T", "D", uRec.id⟩],
          nextJobId := dbEx.nextJobId + 1 },
       Except.ok "Job posted successfully") :=
  ⟨(post_job_recruiter_only dbEx "c@x.com" "T" "D").1 (by decide),
   (post_job_recruiter_only dbEx "r@x.com" "T" "D").2 uRec (by decide) (by decide)⟩

/-- C1 (code bug): evaluated at the failing input — recruiter "r@x.com",
who owns job 1, to which candidate "c@x.com" applied — `list_applicants`
does not return the applicant emails: the success branch reads the
undefined `job.applications` relationship, raises AttributeError, and the
request fails with an HTTP 500 (store unchanged) instead of the claimed
email list; the claimed NotFound does hold for job 2, which exists but is
owned by a different recruiter. -/
theorem list_applicants_crashes_on_success :
    list_applicants dbEx "r@x.com" 1 = (dbEx, Except.error internalError) ∧
    list_applicants dbEx "r@x.com" 2 = (dbEx, Except.error notFound) :=
  ⟨rfl, rfl⟩

/-- C10: when the credential resolves to a user whose role is neither
"recruiter" nor "candidate", every role-gated handler fails with
Forbidden (403) and leaves the store unchanged, for every request body —
including a job id that does not exist, since the role check precedes the
job lookup (403, not 404). -/
theorem role_gate_precedes (db : DB) (token : String) (u : User)
    (hu : resolveUser db token = some u)
    (hr : u.role ≠ "recruiter") (hc : u.role ≠ "candidate") :
    (∀ title description,
      post_job db token title description = (db, Except.error forbidden)) ∧
    (∀ job_id ok1 ok2,
      apply_to_job db token job_id ok1 ok2 = (db, Except.error forbidden, [])) ∧
    list_applications db token = (db, Except.error forbidden) ∧
    (∀ job_id, list_applicants db token job_id = (db, Except.error forbidden)) := by
  refine ⟨?_, ?_, ?_, ?_⟩
  · intro title description
    simp [post_job, hu, hr]
  · intro job_id ok1 ok2
    simp [apply_to_job, hu, hc]
  · simp [list_applications, hu, hc]
  · intro job_id
    simp [list_applicants, hu, hr]

/-- Witness for C10 on the sample store: the "admin" user is rejected with
Forbidden by all four gated handlers, even with the nonexistent job id 99. -/
theorem role_gate_precedes_witness :
    post_job dbEx "a@x.com" "T" "D" = (dbEx, Except.error forbidden) ∧
    apply_to_job dbEx "a@x.com" 99 true true = (dbEx, Except.error forbidden, []) ∧
    list_applications dbEx "a@x.com" = (dbEx, Except.error forbidden) ∧
    list_applicants dbEx "a@x.com" 99 = (dbEx, Except.error forbidden) :=
  ⟨(role_gate_precedes dbEx "a@x.com" uAdm (by decide) (by decide) (by decide)).1 "T" "D",
   (role_gate_precedes dbEx "a@x.com" uAdm (by decide) (by decide) (by decide)).2.1 99 true true,
   (role_gate_precedes dbEx "a@x.com" uAdm (by decide) (by decide) (by decide)).2.2.1,
   (role_gate_precedes dbEx "a@x.com" uAdm (by decide) (by decide) (by decide)).2.2.2 99⟩

/-- Helper: with a candidate credential and an existing job,
`apply_to_job` reaches the success branch, and the whole result is the
store with one appended application, the success message, and the logs of
the two notification attempts. -/
theorem apply_ok_aux (db : DB) (token : String) (job_id : Nat) (ok1 ok2 : Bool) (u : User)
    (hu : resolveUser db token = some u) (hrole : u.role = "candidate")
    (hjob : ∃ j ∈ db.jobs, j.id = job_id) :
    ∃ job, db.jobs.find? (fun k => k.id == job_id) = some job ∧ job.id = job_id ∧
      apply_to_job db token job_id ok1 ok2 =
        ({ db with
            applications := db.applications ++ [⟨db.nextAppId, u.id, job_id⟩],
            nextAppId := db.nextAppId + 1 },
         Except.ok "Applied successfully",
         send_email ok1 ((recruiterEmailOf db job).getD "") "Job Application Received"
             (u.email ++ " applied for your job " ++ job.title)
           ++ send_email ok2 u.email "Application Submitted"
             ("You applied for the job " ++ job.title)) := by
  obtain ⟨j, hj, hid⟩ := hjob
  rcases h : db.jobs.find? (fun k => k.id == job_id) with _ | job
  · exact absurd (by simp [hid] : (fun k => k.id == job_id) j = true)
      (List.find?_eq_none.mp h j hj)
  · have hjid := List.find?_some h
    simp at hjid
    exact ⟨job, h, hjid, by simp [apply_to_job, hu, hrole, h, hjid]⟩

/-- C2: with a candidate credential, `apply_to_job` on an existing job
succeeds and appends exactly one Application linking this candidate and
this job; applying again with the same job id appends a second, distinct
Application (duplicates are not deduplicated); with a job id matching no
stored job it fails with NotFound (404) and appends nothing. -/
theorem apply_creates_application (db : DB) (token : String) (job_id : Nat)
    (ok1 ok2 : Bool) (u : User)
    (hu : resolveUser db token = some u) (hrole : u.role = "candidate") :
    ((∃ j ∈ db.jobs, j.id = job_id) →
      (apply_to_job db token job_id ok1 ok2).1.applications
          = db.applications ++ [⟨db.nextAppId, u.id, job_id⟩] ∧
      (apply_to_job db token job_id ok1 ok2).2.1 = Except.ok "Applied successfully" ∧
      (apply_to_job (apply_to_job db token job_id ok1 ok2).1 token job_id ok1 ok2).1.applications
          = db.applications ++
              [⟨db.nextAppId, u.id, job_id⟩, ⟨db.nextAppId + 1, u.id, job_id⟩]) ∧
    ((∀ j ∈ db.jobs, j.id ≠ job_id) →
      apply_to_job db token job_id ok1 ok2 = (db, Except.error notFound, [])) := by
  constructor
  · intro hjob
    obtain ⟨job, hfind, hjid, heq⟩ := apply_ok_aux db token job_id ok1 ok2 u hu hrole hjob
    refine ⟨by rw [heq], by rw [heq], ?_⟩
    rw [heq]
    obtain ⟨j, hj, hid⟩ := hjob
    obtain ⟨job2, hfind2, hjid2, heq2⟩ :=
      apply_ok_aux
        ({ db with
            applications := db.applications ++ [⟨db.nextAppId, u.id, job_id⟩],
            nextAppId := db.nextAppId + 1 })
        token job_id ok1 ok2 u hu hrole ⟨j, hj, hid⟩
    rw [heq2]
    simp
  · intro hall
    have hnone : db.jobs.find? (fun k => k.id == job_id) = none :=
      List.find?_eq_none.mpr (fun j hj => by simpa using hall j hj)
    simp [apply_to_job, hu, hrole, hnone]

/-- Witness for C2 on the sample store: the candidate applies to job 1,
one application row is appended; applying twice appends two rows; job 99
does not exist and yields NotFound with the store unchanged. -/
theorem apply_creates_application_witness :
    (apply_to_job dbEx "c@x.com" 1 true true).1.applications
        = dbEx.applications ++ [⟨dbEx.nextAppId, uCan.id, 1⟩] ∧
    (apply_to_job (apply_to_job dbEx "c@x.com" 1 true true).1 "c@x.com" 1 true true).1.applications
        = dbEx.applications ++ [⟨dbEx.nextAppId, uCan.id, 1⟩, ⟨dbEx.nextAppId + 1, uCan.id, 1⟩] ∧
    apply_to_job dbEx "c@x.com" 99 true true = (dbEx, Except.error notFound, []) :=
  ⟨((apply_creates_application dbEx "c@x.com" 1 true true uCan (by decide) (by decide)).1
      ⟨jOwn, by decide, by decide⟩).1,
   ((apply_creates_application dbEx "c@x.com" 1 true true uCan (by decide) (by decide)).1
      ⟨jOwn, by decide, by decide⟩).2.2,
   (apply_creates_application dbEx "c@x.com" 99 true true uCan (by decide) (by decide)).2
      (by decide)⟩

/-- C6: notification outcomes never affect the request: with a candidate
credential and an existing job, the resulting store is identical whatever
the two notification attempts do, the success acknowledgment is returned,
and the application row is committed. -/
theorem apply_notification_failures_suppressed (db : DB) (token : String) (job_id : Nat)
    (ok1 ok2 : Bool) (u : User)
    (hu : resolveUser db token = some u) (hrole : u.role = "candidate")
    (hjob : ∃ j ∈ db.jobs, j.id = job_id) :
    (apply_to_job db token job_id ok1 ok2).1 = (apply_to_job db token job_id true true).1 ∧
    (apply_to_job db token job_id ok1 ok2).2.1 = Except.ok "Applied successfully" ∧
    (apply_to_job db token job_id ok1 ok2).1.applications
        = db.applications ++ [⟨db.nextAppId, u.id, job_id⟩] := by
  obtain ⟨job, hfind, hjid, heq⟩ := apply_ok_aux db token job_id ok1 ok2 u hu hrole hjob
  obtain ⟨job2, hfind2, hjid2, heq2⟩ := apply_ok_aux db token job_id true true u hu hrole hjob
  rw [heq, heq2]
  exact ⟨rfl, rfl, rfl⟩

/-- Witness for C6 on the sample store: with both notification sends
failing, the application to job 1 is still committed and acknowledged,
and the store equals the one obtained when both sends succeed. -/
theorem apply_notification_failures_suppressed_witness :
    (apply_to_job dbEx "c@x.com" 1 false false).1
        = (apply_to_job dbEx "c@x.com" 1 true true).1 ∧
    (apply_to_job dbEx "c@x.com" 1 false false).2.1 = Except.ok "Applied successfully" ∧
    (apply_to_job dbEx "c@x.com" 1 false false).1.applications
        = dbEx.applications ++ [⟨dbEx.nextAppId, uCan.id, 1⟩] :=
  apply_notification_failures_suppressed dbEx "c@x.com" 1 false false uCan
    (by decide) (by decide) ⟨jOwn, by decide, by decide⟩

/-- Helper for C8: `signup` either leaves the store unchanged or appends
one user. -/
theorem signup_db_cases (db : DB) (e p ro : String) :
    (signup db e p ro).1 = db ∨
    (signup db e p ro).1 =
      { db with users := db.users ++ [⟨db.nextUserId, e, p, ro⟩],
                nextUserId := db.nextUserId + 1 } := by
  rcases h : db.users.find? (fun v => v.email == e) with _ | u
  · right; simp [signup, h]
  · left; simp [signup, h]

/-- Helper for C8: `post_job` either leaves the store unchanged or appends
one job. -/
theorem post_job_db_cases (db : DB) (t ti d : String) :
    (post_job db t ti d).1 = db ∨
    ∃ u : User, (post_job db t ti d).1 =
      { db with jobs := db.jobs ++ [⟨db.nextJobId, ti, d, u.id⟩],
                nextJobId := db.nextJobId + 1 } := by
  rcases h : resolveUser db t with _ | u
  · left; simp [post_job, h]
  · by_cases hr : u.role = "recruiter"
    · right; exact ⟨u, by simp [post_job, h, hr]⟩
    · left; simp [post_job, h, hr]

/-- Helper for C8: `apply_to_job` either leaves the store unchanged or
appends one application. -/
theorem apply_db_cases (db : DB) (t : String) (jid : Nat) (ok1 ok2 : Bool) :
    (apply_to_job db t jid ok1 ok2).1 = db ∨
    ∃ (u : User) (job : Job), (apply_to_job db t jid ok1 ok2).1 =
      { db with applications := db.applications ++ [⟨db.nextAppId, u.id, job.id⟩],
                nextAppId := db.nextAppId + 1 } := by
  rcases h : resolveUser db t with _ | u
  · left; simp [apply_to_job, h]
  · by_cases hr : u.role = "candidate"
    · rcases hj : db.jobs.find? (fun k => k.id == jid) with _ | job
      · left; simp [apply_to_job, h, hr, hj]
      · right; exact ⟨u, job, by simp [apply_to_job, h, hr, hj]⟩
    · left; simp [apply_to_job, h, hr]

/-- Helper for C8: `list_applications` never changes the store. -/
theorem list_applications_db_eq (db : DB) (t : String) :
    (list_applications db t).1 = db := by
  rcases h : resolveUser db t with _ | u
  · simp [list_applications, h]
  · by_cases hr : u.role = "candidate" <;> simp [list_applications, h, hr]

/-- Helper for C8: `list_applicants` never changes the store. -/
theorem list_applicants_db_eq (db : DB) (t : String) (jid : Nat) :
    (list_applicants db t jid).1 = db := by
  rcases h : resolveUser db t with _ | u
  · simp [list_applicants, h]
  · by_cases hr : u.role = "recruiter"
    · rcases hj : db.jobs.find? (fun k => k.id == jid && k.recruiter_id == u.id)
        with _ | job <;> simp [list_applicants, h, hr, hj]
    · simp [list_applicants, h, hr]

/-- C8: no request updates or deletes an existing record — after any
request the stored users, jobs and applications are the old lists with
rows possibly appended, so every existing record keeps its position and
all its fields — and `logout` in particular changes no server-side state
at all. -/
theorem records_append_only (db : DB) (r : Req) :
    (∃ lu, (step db r).users = db.users ++ lu) ∧
    (∃ lj, (step db r).jobs = db.jobs ++ lj) ∧
    (∃ la, (step db r).applications = db.applications ++ la) ∧
    step db Req.rlogout = db := by
  have h : ∃ lu lj la, (step db r).users = db.users ++ lu ∧
      (step db r).jobs = db.jobs ++ lj ∧
      (step db r).applications = db.applications ++ la := by
    cases r with
    | rhome => exact ⟨[], [], [], by simp [step], by simp [step], by simp [step]⟩
    | rsignup e p ro =>
        rcases signup_db_cases db e p ro with h | h
        · exact ⟨[], [], [],
            by simp [step, h], by simp [step, h], by simp [step, h]⟩
        · exact ⟨[⟨db.nextUserId, e, p, ro⟩], [], [],
            by simp [step, h], by simp [step, h], by simp [step, h]⟩
    | rlogin a b => exact ⟨[], [], [], by simp [step], by simp [step], by simp [step]⟩
    | rlistJobs t => exact ⟨[], [], [], by simp [step], by simp [step], by simp [step]⟩
    | rpostJob t ti d =>
        rcases post_job_db_cases db t ti d with h | ⟨u, h⟩
        · exact ⟨[], [], [],
            by simp [step, h], by simp [step, h], by simp [step, h]⟩
        · exact ⟨[], [⟨db.nextJobId, ti, d, u.id⟩], [],
            by simp [step, h], by simp [step, h], by simp [step, h]⟩
    | rapply t jid ok1 ok2 =>
        rcases apply_db_cases db t jid ok1 ok2 with h | ⟨u, job, h⟩
        · exact ⟨[], [], [],
            by simp [step, h], by simp [step, h], by simp [step, h]⟩
        · exact ⟨[], [], [⟨db.nextAppId, u.id, job.id⟩],
            by simp [step, h], by simp [step, h], by simp [step, h]⟩
    | rlistApplications t =>
        exact ⟨[], [], [],
          by simp [step, list_applications_db_eq],
          by simp [step, list_applications_db_eq],
          by simp [step, list_applications_db_eq]⟩
    | rlistApplicants t jid =>
        exact ⟨[], [], [],
          by simp [step, list_applicants_db_eq],
          by simp [step, list_applicants_db_eq],
          by simp [step, list_applicants_db_eq]⟩
    | rlogout => exact ⟨[], [], [], by simp [step], by simp [step], by simp [step]⟩
  obtain ⟨lu, lj, la, h1, h2, h3⟩ := h
  exact ⟨⟨lu, h1⟩, ⟨lj, h2⟩, ⟨la, h3⟩, rfl⟩

/-- C9: the schema declares users.email unique, so the constraint-level
insert rejects a user whose email duplicates a stored row even when no
handler pre-check ran. -/
theorem schema_unique_email_rejects (users : List User) (u v : User)
    (hv : v ∈ users) (he : v.email = u.email) :
    usersEmailUniqueConstraint = true ∧ storeInsertUser users u = none := by
  refine ⟨rfl, ?_⟩
  have hany : users.any (fun w => w.email == u.email) = true :=
    List.any_eq_true.mpr ⟨v, hv, by simp [he]⟩
  simp [storeInsertUser, usersEmailUniqueConstraint, hany]

/-- Witness for C9: inserting a second user with the candidate's email is
rejected by the unique constraint alone. -/
theorem schema_unique_email_rejects_witness :
    usersEmailUniqueConstraint = true ∧
    storeInsertUser [uCan] ⟨9, "c@x.com", "q2", "candidate"⟩ = none :=
  schema_unique_email_rejects [uCan] ⟨9, "c@x.com", "q2", "candidate"⟩ uCan
    (by decide) (by decide)

end JobBoard
